import Mathlib

/-!
Verification of the tile dispatch/collection core of `pathml/core/slide_data.py`.

The embedding models `SlideData.run`, `SlideData.generate_tiles` and
`SlideData._create_tile_dataset` from the source.  External collaborators that
are not part of the source file (the `Tiles` container, `Masks.slice`, the
`Tile` record, and the dask worker pool) are modelled from the specification,
each marked with a doc comment.  Machine behaviour that matters here is purely
structural (lists, records, exceptions), so the embedding uses plain Lean data.
-/

/-- A 2-dimensional annotation mask, row-major. -/
abbrev Mask2D := List (List Int)

/-- Modelled from the spec: the `pathml.core.masks.Masks` mapping (not in the
source tree) is a mapping from mask-key to array-like mask. -/
abbrev MasksMap := List (String × Mask2D)

/-- Modelled from the spec: slide-level labels, an immutable mapping from key
to value (`pathml` stores them in an ordered dict). -/
abbrev Labels := List (String × Int)

/-- Modelled from the spec: the `pathml.core.tile.Tile` record (not in the
source tree): pixel data, optional coordinate, optional masks sub-mapping,
optional labels, optional provenance tag. -/
structure Tile where
  image : List (List Int)
  coords : Option (Nat × Nat)
  masks : MasksMap
  labels : Option Labels
  slidetype : Option String
deriving DecidableEq

/-- Modelled from the spec: the `pathml.core.tiles.Tiles` result container
(not in the source tree), append-only from the engine's perspective; entries
are kept in insertion (collection) order. -/
structure Tiles where
  entries : List Tile
deriving DecidableEq

/-- Modelled from the spec: `Tiles()` constructs an empty container. -/
def Tiles.empty : Tiles := ⟨[]⟩

/-- Modelled from the spec: `Tiles.add` folds one processed tile into the
container; duplicate keys each get a distinct slot (no silent overwrite). -/
def Tiles.add (ts : Tiles) (t : Tile) : Tiles := ⟨ts.entries ++ [t]⟩

/-- A key of the result container: the tile's coordinate, or a synthetic
sequential key when coordinates are absent. -/
inductive TileKey where
  | coord (c : Nat × Nat)
  | synth (n : Nat)
deriving DecidableEq

/-- Keys of a list of entries, positions starting at `pos`. -/
def keysFrom (pos : Nat) : List Tile → List TileKey
  | [] => []
  | t :: rest =>
    (match t.coords with
     | some c => TileKey.coord c
     | none => TileKey.synth pos) :: keysFrom (pos + 1) rest

/-- Modelled from the spec: the container is keyed by the tile's coordinate,
or by a synthetic sequential key if coordinates are absent. -/
def Tiles.keys (ts : Tiles) : List TileKey := keysFrom 0 ts.entries

/-- Modelled from the spec: `Masks.slice` (not in the source tree) requests
the exact sub-region `[i:i+di, j:j+dj]` from one mask. -/
def sliceMask2D (m : Mask2D) (i di j dj : Nat) : Mask2D :=
  ((m.drop i).take di).map (fun row => (row.drop j).take dj)

/-- Modelled from the spec: `self.masks.slice(tile_slices)` applied to every
mask in the mapping, producing a new mapping with identical keys. -/
def masksSlice (m : MasksMap) (i di j dj : Nat) : MasksMap :=
  m.map (fun kv => (kv.1, sliceMask2D kv.2 i di j dj))

/-- The provenance tag `type(self)` written by `generate_tiles`. -/
def slideDataType : String := "SlideData"

/-- The dataset produced by `SlideData._create_tile_dataset`: it captures the
aggregate's tiles container and labels. -/
structure TileDataset where
  tiles : Tiles
  labels : Option Labels
deriving DecidableEq

/-- `TileDataset.__len__`: the number of entries of the captured container. -/
def TileDataset.len (d : TileDataset) : Nat := d.tiles.entries.length

/-- `TileDataset.__getitem__`: positional lookup returning the pair
`(self.tiles[ix], self.labels)`.  Modelled from the spec: positional indexing
of the `Tiles` container (not in the source tree) returns the entry at that
position in collection order; out-of-range lookups are `none`. -/
def TileDataset.getItem (d : TileDataset) (ix : Nat) : Option Tile × Option Labels :=
  (d.tiles.entries[ix]?, d.labels)

/-- The `SlideData` aggregate.  The slide backend is reduced to presence
(`run` only checks `self.slide is not None` and asks it for raw tiles, which
the embedding passes in explicitly). -/
structure SlideData where
  slide : Option Unit
  name : Option String
  masks : Option MasksMap
  tiles : Option Tiles
  labels : Option Labels
  history : Option (List String)
  tile_dataset : Option TileDataset
deriving DecidableEq

/-- Errors surfaced by `run` / `generate_tiles`. -/
inductive RunError where
  | assertNoSlide
  | alreadyPopulated
  | consistency (msg : String)
  | jobFailure (msg : String)
deriving DecidableEq

/-- The tail of the `generate_tiles` loop body: attach the slide-level labels
when present, then set the provenance tag when it is still unset. -/
def finishTile (sd : SlideData) (t1 : Tile) : Tile :=
  let t2 :=
    match sd.labels with
    | some l => { t1 with labels := some l }
    | none => t1
  if t2.slidetype = none then { t2 with slidetype := some slideDataType } else t2

/-- The loop body of `SlideData.generate_tiles`: decorate one backend tile
with the mask sub-region (when masks and coordinates are present and padding
is off), the slide-level labels, and the provenance tag.  The internal
assertion (tile already carries masks) becomes an `Except.error`. -/
def SlideData.processTile (sd : SlideData) (pad : Bool) (tile : Tile) : Except String Tile :=
  let step1 : Except String Tile :=
    match sd.masks, tile.coords with
    | some m, some (i, j) =>
      if pad then Except.ok tile
      else
        let di := tile.image.length
        let dj := (tile.image.headD []).length
        if tile.masks.length = 0 then
          Except.ok { tile with masks := masksSlice m i di j dj }
        else
          Except.error "tile yielded from backend already has mask"
    | _, _ => Except.ok tile
  match step1 with
  | Except.error e => Except.error e
  | Except.ok t1 => Except.ok (finishTile sd t1)

/-- `SlideData.generate_tiles`: the backend's raw tiles are passed in as a
list; each is decorated in order, and a failing assertion aborts the
generator (tiles after the failure are never yielded). -/
def SlideData.generateTiles (sd : SlideData) (pad : Bool) : List Tile → Except String (List Tile)
  | [] => Except.ok []
  | t :: rest =>
    match sd.processTile pad t with
    | Except.error e => Except.error e
    | Except.ok t1 =>
      match sd.generateTiles pad rest with
      | Except.error e => Except.error e
      | Except.ok ts => Except.ok (t1 :: ts)

/-- The collection loop of `run`: fold completed results into the container
in arrival order; a raising job aborts the loop, leaving the container as
collected so far. -/
def collectResults (acc : Tiles) : List (Except String Tile) → Tiles × Option String
  | [] => (acc, none)
  | Except.ok t :: rest => collectResults (Tiles.add acc t) rest
  | Except.error e :: _ => (acc, some e)

/-- `SlideData._create_tile_dataset`: capture the aggregate's tiles container
and labels into a random-access view. -/
def SlideData.createTileDataset (sd : SlideData) : TileDataset :=
  { tiles := sd.tiles.getD Tiles.empty, labels := sd.labels }

/-- The dispatch and collection phase of `run`, entered after the tiles
container has been (re)initialised to empty.  `pipe` is `pipeline.apply`, a
job that may raise; `order` models the arrival order of
`dask.distributed.as_completed` as a permutation of the submitted job
indices (dask is not part of the source tree). -/
def SlideData.runDispatch (sd : SlideData) (pipe : Tile → Except String Tile)
    (backendTiles : List Tile) (pad : Bool) (order : List Nat) :
    SlideData × Option RunError :=
  match sd.generateTiles pad backendTiles with
  | Except.error e => (sd, some (RunError.consistency e))
  | Except.ok gts =>
    let jobs := gts.map pipe
    let completed := order.filterMap (fun k => jobs[k]?)
    match collectResults (sd.tiles.getD Tiles.empty) completed with
    | (final, some e) => ({ sd with tiles := some final }, some (RunError.jobFailure e))
    | (final, none) =>
      let sd2 := { sd with tiles := some final }
      ({ sd2 with tile_dataset := some sd2.createTileDataset }, none)

/-- `SlideData.run`: assert the slide is present, guard the tiles container
(raise unless it is `None` or overwriting was requested, else reset it to
empty), then dispatch all tiles and collect the results.  The returned pair
is the aggregate's final state together with the raised error, if any. -/
def SlideData.run (sd : SlideData) (pipe : Tile → Except String Tile)
    (backendTiles : List Tile) (pad : Bool) (order : List Nat)
    (overwrite : Bool) : SlideData × Option RunError :=
  match sd.slide with
  | none => (sd, some RunError.assertNoSlide)
  | some _ =>
    match sd.tiles with
    | none =>
      SlideData.runDispatch { sd with tiles := some Tiles.empty } pipe backendTiles pad order
    | some _ =>
      if overwrite then
        SlideData.runDispatch { sd with tiles := some Tiles.empty } pipe backendTiles pad order
      else
        (sd, some RunError.alreadyPopulated)

/-- A sample backend tile at the origin with a 2×2 image and no decorations. -/
def tileA : Tile :=
  { image := [[1, 2], [3, 4]], coords := some (0, 0), masks := [], labels := none,
    slidetype := none }

/-- A second sample backend tile at coordinate (0, 2). -/
def tileB : Tile :=
  { image := [[5, 6], [7, 8]], coords := some (0, 2), masks := [], labels := none,
    slidetype := none }

/-- A sample backend tile that (incorrectly) already carries a mask. -/
def tileC : Tile :=
  { image := [[9]], coords := some (2, 2), masks := [("m", [[1]])], labels := none,
    slidetype := none }

/-- A sample 4×4 slide-level mask. -/
def maskM : Mask2D := [[1, 0, 1, 0], [0, 1, 0, 1], [1, 1, 0, 0], [0, 0, 1, 1]]

/-- A sample aggregate with a slide, one mask, labels, and no tiles yet. -/
def sdSample : SlideData :=
  { slide := some (), name := some "s", masks := some [("m", maskM)], tiles := none,
    labels := some [("lab", 7)], history := none, tile_dataset := none }

/-- The sample aggregate with a present-but-empty tiles container. -/
def sdEmptyTiles : SlideData := { sdSample with tiles := some Tiles.empty }

/-- The sample aggregate without a slide (headless). -/
def sdNoSlide : SlideData := { sdSample with slide := none }

/-- The identity pipeline job: `pipeline.apply` that returns its tile. -/
def idPipe : Tile → Except String Tile := fun t => Except.ok t

/-- A pipeline job that raises on the tile at coordinate (0, 2). -/
def failPipe : Tile → Except String Tile :=
  fun t => if t.coords = some (0, 2) then Except.error "boom" else Except.ok t

/-- `tileA` after decoration with pad=false: sliced mask, labels, provenance. -/
def tileAProcessed : Tile :=
  { image := [[1, 2], [3, 4]], coords := some (0, 0), masks := [("m", [[1, 0], [0, 1]])],
    labels := some [("lab", 7)], slidetype := some slideDataType }

/-- `tileA` after decoration with pad=true: labels and provenance only. -/
def tileALabeled : Tile :=
  { tileA with labels := some [("lab", 7)], slidetype := some slideDataType }

/-- `tileB` after decoration with pad=true: labels and provenance only. -/
def tileBLabeled : Tile :=
  { tileB with labels := some [("lab", 7)], slidetype := some slideDataType }

/-! ## Helper lemmas about the tile decoration steps -/

theorem finishTile_masks (sd : SlideData) (t : Tile) : (finishTile sd t).masks = t.masks := by
  unfold finishTile
  cases sd.labels <;> dsimp <;> split <;> rfl

theorem finishTile_image (sd : SlideData) (t : Tile) : (finishTile sd t).image = t.image := by
  unfold finishTile
  cases sd.labels <;> dsimp <;> split <;> rfl

theorem finishTile_coords (sd : SlideData) (t : Tile) : (finishTile sd t).coords = t.coords := by
  unfold finishTile
  cases sd.labels <;> dsimp <;> split <;> rfl

theorem finishTile_labels (sd : SlideData) (t : Tile) (l : Labels) (hl : sd.labels = some l) :
    (finishTile sd t).labels = some l := by
  unfold finishTile
  rw [hl]
  dsimp
  split <;> rfl

theorem finishTile_slidetype_none (sd : SlideData) (t : Tile) (h : t.slidetype = none) :
    (finishTile sd t).slidetype = some slideDataType := by
  unfold finishTile
  cases hl : sd.labels <;> dsimp <;> rw [if_pos h]

theorem finishTile_slidetype_some (sd : SlideData) (t : Tile) (s : String)
    (h : t.slidetype = some s) : (finishTile sd t).slidetype = some s := by
  unfold finishTile
  cases hl : sd.labels <;> dsimp <;> rw [if_neg (by rw [h]; exact fun hc => Option.noConfusion hc)]
  · exact h
  · exact h

theorem processTile_noattach (sd : SlideData) (pad : Bool) (t : Tile)
    (h : sd.masks = none ∨ t.coords = none) :
    sd.processTile pad t = Except.ok (finishTile sd t) := by
  unfold SlideData.processTile
  rcases h with h | h
  · rw [h]
  · rw [h]
    cases sd.masks <;> rfl

theorem processTile_pad (sd : SlideData) (t : Tile) (m : MasksMap) (c : Nat × Nat)
    (hm : sd.masks = some m) (hc : t.coords = some c) :
    sd.processTile true t = Except.ok (finishTile sd t) := by
  obtain ⟨i, j⟩ := c
  unfold SlideData.processTile
  rw [hm, hc]
  rfl

theorem processTile_attach (sd : SlideData) (t : Tile) (m : MasksMap) (i j : Nat)
    (hm : sd.masks = some m) (hc : t.coords = some (i, j)) (hempty : t.masks = []) :
    sd.processTile false t =
      Except.ok (finishTile sd
        { t with masks := masksSlice m i t.image.length j (t.image.headD []).length }) := by
  unfold SlideData.processTile
  rw [hm, hc]
  dsimp
  rw [if_pos (by rw [hempty]; rfl)]

theorem processTile_assert (sd : SlideData) (t : Tile) (m : MasksMap) (c : Nat × Nat)
    (hm : sd.masks = some m) (hc : t.coords = some c) (hmasks : t.masks ≠ []) :
    sd.processTile false t = Except.error "tile yielded from backend already has mask" := by
  unfold SlideData.processTile
  rw [hm, hc]
  dsimp
  rw [if_neg (fun hlen => hmasks (List.eq_nil_of_length_eq_zero hlen))]

theorem processTile_ok_shape (sd : SlideData) (pad : Bool) (t t' : Tile)
    (h : sd.processTile pad t = Except.ok t') :
    ∃ t0, t' = finishTile sd t0 ∧ t0.slidetype = t.slidetype ∧ t0.coords = t.coords ∧
      t0.image = t.image ∧ t0.labels = t.labels := by
  cases hm : sd.masks with
  | none =>
    rw [processTile_noattach sd pad t (Or.inl hm)] at h
    injection h with h
    exact ⟨t, h.symm, rfl, rfl, rfl, rfl⟩
  | some m =>
    cases hc : t.coords with
    | none =>
      rw [processTile_noattach sd pad t (Or.inr hc)] at h
      injection h with h
      exact ⟨t, h.symm, rfl, hc, rfl, rfl⟩
    | some c =>
      cases pad with
      | true =>
        rw [processTile_pad sd t m c hm hc] at h
        injection h with h
        exact ⟨t, h.symm, rfl, hc, rfl, rfl⟩
      | false =>
        obtain ⟨i, j⟩ := c
        by_cases hempty : t.masks = []
        · rw [processTile_attach sd t m i j hm hc hempty] at h
          injection h with h
          exact ⟨_, h.symm, rfl, hc, rfl, rfl⟩
        · rw [processTile_assert sd t m (i, j) hm hc hempty] at h
          exact Except.noConfusion h

theorem generateTiles_mem (sd : SlideData) (pad : Bool) (bt : List Tile) :
    ∀ gts, sd.generateTiles pad bt = Except.ok gts →
      ∀ t' ∈ gts, ∃ t ∈ bt, sd.processTile pad t = Except.ok t' := by
  induction bt with
  | nil =>
    intro gts h t' ht'
    unfold SlideData.generateTiles at h
    injection h with h
    subst h
    exact absurd ht' (List.not_mem_nil t')
  | cons t rest ih =>
    intro gts h t' ht'
    unfold SlideData.generateTiles at h
    cases hp : sd.processTile pad t with
    | error e => rw [hp] at h; exact Except.noConfusion h
    | ok t1 =>
      rw [hp] at h
      cases hr : sd.generateTiles pad rest with
      | error e => rw [hr] at h; exact Except.noConfusion h
      | ok ts =>
        rw [hr] at h
        injection h with h
        subst h
        rcases List.mem_cons.mp ht' with h1 | h1
        · exact ⟨t, List.mem_cons_self t rest, by rw [hp, h1]⟩
        · rcases ih ts hr t' h1 with ⟨t0, h0, hok⟩
          exact ⟨t0, List.mem_cons_of_mem t h0, hok⟩

theorem generateTiles_ok_all (sd : SlideData) (pad : Bool) (bt : List Tile) :
    ∀ gts, sd.generateTiles pad bt = Except.ok gts →
      ∀ t ∈ bt, ∃ t', sd.processTile pad t = Except.ok t' := by
  induction bt with
  | nil =>
    intro gts _ t ht
    exact absurd ht (List.not_mem_nil t)
  | cons t rest ih =>
    intro gts h t0 ht0
    unfold SlideData.generateTiles at h
    cases hp : sd.processTile pad t with
    | error e => rw [hp] at h; exact Except.noConfusion h
    | ok t1 =>
      rw [hp] at h
      cases hr : sd.generateTiles pad rest with
      | error e => rw [hr] at h; exact Except.noConfusion h
      | ok ts =>
        rcases List.mem_cons.mp ht0 with h1 | h1
        · exact ⟨t1, by rw [h1, hp]⟩
        · exact ih ts hr t0 h1

theorem collectResults_ok (ts : List Tile) :
    ∀ acc : Tiles, collectResults acc (ts.map Except.ok) = (⟨acc.entries ++ ts⟩, none) := by
  induction ts with
  | nil => intro acc; simp [collectResults]
  | cons t rest ih =>
    intro acc
    simp only [List.map_cons, collectResults, ih, Tiles.add]
    simp

theorem collectResults_fail (pre : List Tile) (e : String) (rest : List (Except String Tile)) :
    ∀ acc : Tiles,
      collectResults acc (pre.map Except.ok ++ Except.error e :: rest) =
        (⟨acc.entries ++ pre⟩, some e) := by
  induction pre with
  | nil => intro acc; simp [collectResults]
  | cons t pr ih =>
    intro acc
    rw [List.map_cons, List.cons_append]
    show collectResults (acc.add t) (pr.map Except.ok ++ Except.error e :: rest) = _
    rw [ih]
    simp [Tiles.add]

theorem filterMap_getElem_range {α : Type} (l : List α) :
    (List.range l.length).filterMap (fun k => l[k]?) = l := by
  induction l with
  | nil => rfl
  | cons a l ih =>
    rw [List.length_cons, List.range_succ_eq_map, List.filterMap_cons]
    simp only [List.getElem?_cons_zero, List.filterMap_map]
    have hfun : ((fun k => (a :: l)[k]?) ∘ Nat.succ) = fun k => l[k]? := by
      funext k
      exact List.getElem?_cons_succ
    rw [hfun, ih]

theorem completed_perm (applied : List Tile) (order : List Nat)
    (horder : order.Perm (List.range applied.length)) :
    (order.filterMap (fun k => applied[k]?)).Perm applied := by
  have h := horder.filterMap (fun k => applied[k]?)
  rw [filterMap_getElem_range] at h
  exact h

theorem keysFrom_all_coords (e : List Tile) :
    ∀ pos : Nat, (∀ t ∈ e, t.coords ≠ none) →
      keysFrom pos e = e.map (fun t => TileKey.coord (t.coords.getD (0, 0))) := by
  induction e with
  | nil => intro pos _; rfl
  | cons t rest ih =>
    intro pos hall
    unfold keysFrom
    cases hc : t.coords with
    | none => exact absurd hc (hall t (List.mem_cons_self t rest))
    | some c =>
      rw [List.map_cons, ih (pos + 1) (fun t0 h0 => hall t0 (List.mem_cons_of_mem t h0))]
      rw [hc]
      rfl

theorem processTile_ext (sd1 sd2 : SlideData) (hm : sd1.masks = sd2.masks)
    (hl : sd1.labels = sd2.labels) (pad : Bool) (t : Tile) :
    sd1.processTile pad t = sd2.processTile pad t := by
  unfold SlideData.processTile finishTile
  rw [hm, hl]

theorem generateTiles_ext (sd1 sd2 : SlideData) (hm : sd1.masks = sd2.masks)
    (hl : sd1.labels = sd2.labels) (pad : Bool) :
    ∀ bt, sd1.generateTiles pad bt = sd2.generateTiles pad bt := by
  intro bt
  induction bt with
  | nil => rfl
  | cons t rest ih =>
    unfold SlideData.generateTiles
    rw [processTile_ext sd1 sd2 hm hl pad t, ih]

theorem runDispatch_all_ok (sd : SlideData) (pipe : Tile → Except String Tile)
    (bt : List Tile) (pad : Bool) (order : List Nat) (gts applied : List Tile)
    (htiles : sd.tiles = some Tiles.empty)
    (hgen : sd.generateTiles pad bt = Except.ok gts)
    (happly : gts.map pipe = applied.map Except.ok) :
    SlideData.runDispatch sd pipe bt pad order =
      ({ sd with tiles := some ⟨order.filterMap (fun k => applied[k]?)⟩,
                 tile_dataset := some ⟨⟨order.filterMap (fun k => applied[k]?)⟩, sd.labels⟩ },
       none) := by
  unfold SlideData.runDispatch
  rw [hgen]
  dsimp only
  rw [happly]
  have hcompleted :
      order.filterMap (fun k => (applied.map (Except.ok : Tile → Except String Tile))[k]?) =
        (order.filterMap (fun k => applied[k]?)).map (Except.ok : Tile → Except String Tile) := by
    rw [List.map_filterMap]
    congr 1
    funext k
    rw [List.getElem?_map]
  rw [hcompleted, htiles, Option.getD_some, collectResults_ok]
  simp [SlideData.createTileDataset, Tiles.empty]

theorem runDispatch_fail (sd : SlideData) (pipe : Tile → Except String Tile)
    (bt : List Tile) (pad : Bool) (order : List Nat) (gts : List Tile)
    (pre : List Tile) (e : String) (rest : List (Except String Tile))
    (htiles : sd.tiles = some Tiles.empty)
    (hgen : sd.generateTiles pad bt = Except.ok gts)
    (hcompleted : order.filterMap (fun k => (gts.map pipe)[k]?) =
      pre.map Except.ok ++ Except.error e :: rest) :
    SlideData.runDispatch sd pipe bt pad order =
      ({ sd with tiles := some ⟨pre⟩ }, some (RunError.jobFailure e)) := by
  unfold SlideData.runDispatch
  rw [hgen]
  dsimp only
  rw [hcompleted, htiles, Option.getD_some, collectResults_fail]
  simp [Tiles.empty]

theorem runDispatch_no_populated_error (sd : SlideData) (pipe : Tile → Except String Tile)
    (bt : List Tile) (pad : Bool) (order : List Nat) :
    (SlideData.runDispatch sd pipe bt pad order).2 ≠ some RunError.alreadyPopulated := by
  intro hcontra
  unfold SlideData.runDispatch at hcontra
  split at hcontra
  · simp at hcontra
  · dsimp only at hcontra
    split at hcontra
    · simp at hcontra
    · simp at hcontra

theorem run_eq_dispatch_of_none (sd : SlideData) (pipe : Tile → Except String Tile)
    (bt : List Tile) (pad : Bool) (order : List Nat) (ow : Bool)
    (hslide : sd.slide = some ()) (htiles : sd.tiles = none) :
    sd.run pipe bt pad order ow =
      SlideData.runDispatch { sd with tiles := some Tiles.empty } pipe bt pad order := by
  unfold SlideData.run
  rw [hslide, htiles]

theorem sliceMask2D_length (mk : Mask2D) (i di j dj : Nat) (h : i + di ≤ mk.length) :
    (sliceMask2D mk i di j dj).length = di := by
  unfold sliceMask2D
  rw [List.length_map, List.length_take, List.length_drop]
  omega

theorem sliceMask2D_row_length (mk : Mask2D) (i di j dj : Nat)
    (h : ∀ row ∈ mk, j + dj ≤ row.length) :
    ∀ row ∈ sliceMask2D mk i di j dj, row.length = dj := by
  intro row hrow
  unfold sliceMask2D at hrow
  rcases List.mem_map.mp hrow with ⟨row0, hrow0, rfl⟩
  have h0 : row0 ∈ mk := List.drop_subset i mk (List.take_subset di (mk.drop i) hrow0)
  rw [List.length_take, List.length_drop]
  have := h row0 h0
  omega

theorem sliceMask2D_content (mk : Mask2D) (i di j dj a b : Nat)
    (ha : a < di) (hb : b < dj) (hbound : i + di ≤ mk.length) :
    ((sliceMask2D mk i di j dj).getD a []).getD b 0 =
      (mk.getD (i + a) []).getD (j + b) 0 := by
  have hlt : i + a < mk.length := by omega
  have hr : mk[i + a]? = some mk[i + a] := List.getElem?_eq_getElem hlt
  simp only [sliceMask2D, List.getD_eq_getElem?_getD, List.getElem?_map, List.getElem?_take,
    List.getElem?_drop, ha, hb, if_true, hr, Option.map_some', Option.getD_some]

/-! ## Claim theorems -/

/-- Claim C9: calling `run` on a headless aggregate (slide is `None`) fails
immediately with the assertion error, before any mutation: the returned
aggregate is the input itself, so the tiles container, the tile dataset and
every other field are unchanged, and neither pool creation nor job submission
is reached. -/
theorem run_headless_asserts (sd : SlideData) (pipe : Tile → Except String Tile)
    (bt : List Tile) (pad : Bool) (order : List Nat) (ow : Bool)
    (h : sd.slide = none) :
    sd.run pipe bt pad order ow = (sd, some RunError.assertNoSlide) := by
  unfold SlideData.run
  rw [h]

theorem run_headless_asserts_witness :
    sdNoSlide.slide = none ∧
      sdNoSlide.run idPipe [tileA] false [0] false =
        (sdNoSlide, some RunError.assertNoSlide) :=
  ⟨rfl, run_headless_asserts sdNoSlide idPipe [tileA] false [0] false rfl⟩

/-- Claim C5: mask attachment is a no-op whenever pad is true, the tile has no
coordinates, or the aggregate has no masks: the loop body of `generate_tiles`
succeeds (no error on that account) and the tile's masks field is exactly what
the backend produced. -/
theorem processTile_mask_noop (sd : SlideData) (pad : Bool) (t : Tile)
    (h : pad = true ∨ t.coords = none ∨ sd.masks = none) :
    ∃ t', sd.processTile pad t = Except.ok t' ∧ t'.masks = t.masks := by
  rcases h with h | h | h
  · subst h
    cases hm : sd.masks with
    | none =>
      exact ⟨finishTile sd t, processTile_noattach sd true t (Or.inl hm), finishTile_masks sd t⟩
    | some m =>
      cases hc : t.coords with
      | none =>
        exact ⟨finishTile sd t, processTile_noattach sd true t (Or.inr hc), finishTile_masks sd t⟩
      | some c =>
        exact ⟨finishTile sd t, processTile_pad sd t m c hm hc, finishTile_masks sd t⟩
  · exact ⟨finishTile sd t, processTile_noattach sd pad t (Or.inr h), finishTile_masks sd t⟩
  · exact ⟨finishTile sd t, processTile_noattach sd pad t (Or.inl h), finishTile_masks sd t⟩

theorem processTile_mask_noop_witness :
    (true = true ∨ tileA.coords = none ∨ sdSample.masks = none) ∧
      ∃ t', sdSample.processTile true tileA = Except.ok t' ∧ t'.masks = tileA.masks :=
  ⟨Or.inl rfl, processTile_mask_noop sdSample true tileA (Or.inl rfl)⟩

/-- Claim C6: if a backend tile already carries a non-empty masks mapping at
the point where mask attachment would occur (aggregate masks present, tile
coordinates present, pad=false), `generate_tiles` fails with the internal
consistency error rather than overwriting the existing masks. -/
theorem generateTiles_assert_nonempty_masks (sd : SlideData) (bt : List Tile)
    (t : Tile) (m : MasksMap) (c : Nat × Nat)
    (hmem : t ∈ bt) (hm : sd.masks = some m) (hc : t.coords = some c)
    (hmasks : t.masks ≠ []) :
    ∃ e, sd.generateTiles false bt = Except.error e := by
  cases hg : sd.generateTiles false bt with
  | error e => exact ⟨e, rfl⟩
  | ok gts =>
    rcases generateTiles_ok_all sd false bt gts hg t hmem with ⟨t', ht'⟩
    rw [processTile_assert sd t m c hm hc hmasks] at ht'
    exact Except.noConfusion ht'

theorem generateTiles_assert_nonempty_masks_witness :
    tileC ∈ [tileC] ∧ sdSample.masks = some [("m", maskM)] ∧
      tileC.coords = some (2, 2) ∧ tileC.masks ≠ [] ∧
      ∃ e, sdSample.generateTiles false [tileC] = Except.error e :=
  ⟨List.mem_singleton.mpr rfl, rfl, rfl, by decide,
    generateTiles_assert_nonempty_masks sdSample [tileC] tileC [("m", maskM)] (2, 2)
      (List.mem_singleton.mpr rfl) rfl rfl (by decide)⟩

/-- Claim C10: the loop body of `generate_tiles` sets the provenance tag to
the aggregate's type only when the tile's tag is still `None`; a backend tile
that arrives with a tag keeps it unchanged. -/
theorem processTile_slidetype_once (sd : SlideData) (pad : Bool) (t t' : Tile)
    (h : sd.processTile pad t = Except.ok t') :
    (t.slidetype = none → t'.slidetype = some slideDataType) ∧
      ∀ s, t.slidetype = some s → t'.slidetype = some s := by
  rcases processTile_ok_shape sd pad t t' h with ⟨t0, rfl, hst, _, _, _⟩
  constructor
  · intro hn
    exact finishTile_slidetype_none sd t0 (by rw [hst, hn])
  · intro s hs
    exact finishTile_slidetype_some sd t0 s (by rw [hst, hs])

theorem processTile_slidetype_once_witness :
    sdSample.processTile false tileA = Except.ok tileAProcessed ∧
      ((tileA.slidetype = none → tileAProcessed.slidetype = some slideDataType) ∧
        ∀ s, tileA.slidetype = some s → tileAProcessed.slidetype = some s) :=
  ⟨rfl, processTile_slidetype_once sdSample false tileA tileAProcessed rfl⟩

/-- Claim C7: when the aggregate has a labels mapping, every tile yielded by
`generate_tiles` has its labels field set to that very slide-level mapping,
identically for all tiles of the slide. -/
theorem generateTiles_labels_shared (sd : SlideData) (pad : Bool) (bt gts : List Tile)
    (l : Labels) (hl : sd.labels = some l)
    (hgen : sd.generateTiles pad bt = Except.ok gts) :
    ∀ t' ∈ gts, t'.labels = some l := by
  intro t' ht'
  rcases generateTiles_mem sd pad bt gts hgen t' ht' with ⟨t, _, hok⟩
  rcases processTile_ok_shape sd pad t t' hok with ⟨t0, rfl, _, _, _, _⟩
  exact finishTile_labels sd t0 l hl

theorem generateTiles_labels_shared_witness :
    sdSample.labels = some [("lab", 7)] ∧
      sdSample.generateTiles true [tileA, tileB] = Except.ok [tileALabeled, tileBLabeled] ∧
      ∀ t' ∈ [tileALabeled, tileBLabeled], t'.labels = some [("lab", 7)] :=
  ⟨rfl, rfl,
    generateTiles_labels_shared sdSample true [tileA, tileB] [tileALabeled, tileBLabeled]
      [("lab", 7)] rfl rfl⟩

/-- Claim C2: for a tile processed with pad=false when the aggregate has masks
and the tile has coordinate (i, j), letting (di, dj) be the extent read from
the tile's actual pixel-data shape, the attached masks mapping is exactly the
slide-level mapping sliced at [i, i+di) × [j, j+dj): the keys are identical,
every source mask appears sliced, and (for masks that cover the rectangle)
each attached sub-region has shape (di, dj) with content equal to the source
mask's region [i:i+di, j:j+dj]. -/
theorem generateTiles_mask_coslice (sd : SlideData) (t : Tile) (m : MasksMap) (i j : Nat)
    (hm : sd.masks = some m) (hc : t.coords = some (i, j)) (hempty : t.masks = []) :
    ∃ t', sd.processTile false t = Except.ok t' ∧
      t'.masks = masksSlice m i t.image.length j (t.image.headD []).length ∧
      t'.masks.map Prod.fst = m.map Prod.fst ∧
      ∀ name mk, (name, mk) ∈ m →
        (name, sliceMask2D mk i t.image.length j (t.image.headD []).length) ∈ t'.masks ∧
        (i + t.image.length ≤ mk.length →
          (sliceMask2D mk i t.image.length j (t.image.headD []).length).length =
            t.image.length) ∧
        ((∀ row ∈ mk, j + (t.image.headD []).length ≤ row.length) →
          ∀ row ∈ sliceMask2D mk i t.image.length j (t.image.headD []).length,
            row.length = (t.image.headD []).length) ∧
        (i + t.image.length ≤ mk.length →
          ∀ a b, a < t.image.length → b < (t.image.headD []).length →
            ((sliceMask2D mk i t.image.length j (t.image.headD []).length).getD a []).getD b 0 =
              (mk.getD (i + a) []).getD (j + b) 0) := by
  refine ⟨_, processTile_attach sd t m i j hm hc hempty, ?_, ?_, ?_⟩
  · rw [finishTile_masks]
  · rw [finishTile_masks]
    simp [masksSlice, List.map_map]
  · intro name mk hmem
    refine ⟨?_, ?_, ?_, ?_⟩
    · rw [finishTile_masks]
      exact List.mem_map_of_mem (fun kv => (kv.1, sliceMask2D kv.2 i t.image.length j
        (t.image.headD []).length)) hmem
    · intro hbound
      exact sliceMask2D_length mk i t.image.length j (t.image.headD []).length hbound
    · intro hrows
      exact sliceMask2D_row_length mk i t.image.length j (t.image.headD []).length hrows
    · intro hbound a b ha hb
      exact sliceMask2D_content mk i t.image.length j (t.image.headD []).length a b ha hb hbound

theorem generateTiles_mask_coslice_witness :
    sdSample.masks = some [("m", maskM)] ∧ tileA.coords = some (0, 0) ∧ tileA.masks = [] ∧
      ∃ t', sdSample.processTile false tileA = Except.ok t' ∧
        t'.masks = masksSlice [("m", maskM)] 0 tileA.image.length 0
          (tileA.image.headD []).length ∧
        t'.masks.map Prod.fst = [("m", maskM)].map Prod.fst ∧
        ∀ name mk, (name, mk) ∈ [("m", maskM)] →
          (name, sliceMask2D mk 0 tileA.image.length 0 (tileA.image.headD []).length) ∈
            t'.masks ∧
          (0 + tileA.image.length ≤ mk.length →
            (sliceMask2D mk 0 tileA.image.length 0 (tileA.image.headD []).length).length =
              tileA.image.length) ∧
          ((∀ row ∈ mk, 0 + (tileA.image.headD []).length ≤ row.length) →
            ∀ row ∈ sliceMask2D mk 0 tileA.image.length 0 (tileA.image.headD []).length,
              row.length = (tileA.image.headD []).length) ∧
          (0 + tileA.image.length ≤ mk.length →
            ∀ a b, a < tileA.image.length → b < (tileA.image.headD []).length →
              ((sliceMask2D mk 0 tileA.image.length 0
                  (tileA.image.headD []).length).getD a []).getD b 0 =
                (mk.getD (0 + a) []).getD (0 + b) 0) :=
  ⟨rfl, rfl, rfl, generateTiles_mask_coslice sdSample tileA [("m", maskM)] 0 0 rfl rfl rfl⟩

/-- Claim C3: for a run that dispatches N tiles whose jobs all succeed, for
any completion (arrival) order of the submitted jobs, the collection loop
folds each completed result into the accumulating container in completion
order (the container's entries are exactly the completed results, in arrival
order), the resulting container has exactly N entries, and when the processed
tiles carry pairwise-distinct coordinates the container has no duplicate
coordinate keys. -/
theorem run_collects_every_completion_order (sd : SlideData)
    (pipe : Tile → Except String Tile) (bt : List Tile) (pad : Bool)
    (order : List Nat) (ow : Bool) (gts applied : List Tile)
    (hslide : sd.slide = some ()) (htiles : sd.tiles = none)
    (hgen : sd.generateTiles pad bt = Except.ok gts)
    (happly : gts.map pipe = applied.map Except.ok)
    (horder : order.Perm (List.range applied.length)) :
    ∃ entries : List Tile,
      entries = order.filterMap (fun k => applied[k]?) ∧
      sd.run pipe bt pad order ow =
        ({ sd with tiles := some ⟨entries⟩,
                   tile_dataset := some ⟨⟨entries⟩, sd.labels⟩ }, none) ∧
      entries.length = applied.length ∧
      ((∀ t ∈ applied, t.coords ≠ none) → (applied.map Tile.coords).Nodup →
        (Tiles.keys ⟨entries⟩).Nodup) := by
  have hperm := completed_perm applied order horder
  refine ⟨order.filterMap (fun k => applied[k]?), rfl, ?_, hperm.length_eq, ?_⟩
  · rw [run_eq_dispatch_of_none sd pipe bt pad order ow hslide htiles]
    have hgen2 : ({ sd with tiles := some Tiles.empty } : SlideData).generateTiles pad bt =
        Except.ok gts := by
      rw [generateTiles_ext { sd with tiles := some Tiles.empty } sd rfl rfl pad bt]
      exact hgen
    rw [runDispatch_all_ok _ pipe bt pad order gts applied rfl hgen2 happly]
  · intro hall hnodup
    have hallE : ∀ t ∈ order.filterMap (fun k => applied[k]?), t.coords ≠ none :=
      fun t ht => hall t (hperm.mem_iff.mp ht)
    rw [Tiles.keys, keysFrom_all_coords _ 0 hallE]
    have hnodupE : ((order.filterMap (fun k => applied[k]?)).map Tile.coords).Nodup :=
      ((hperm.map Tile.coords).symm).nodup hnodup
    rw [show (fun t : Tile => TileKey.coord (t.coords.getD (0, 0))) =
        ((fun o : Option (Nat × Nat) => TileKey.coord (o.getD (0, 0))) ∘ Tile.coords)
      from rfl, ← List.map_map]
    refine List.Nodup.map_on ?_ hnodupE
    intro x hx y hy hxy
    rcases List.mem_map.mp hx with ⟨tx, htx, rfl⟩
    rcases List.mem_map.mp hy with ⟨ty, hty, rfl⟩
    cases hcx : tx.coords with
    | none => exact absurd hcx (hallE tx htx)
    | some a =>
      cases hcy : ty.coords with
      | none => exact absurd hcy (hallE ty hty)
      | some b =>
        rw [hcy] at hxy
        simp only [Option.getD_some, TileKey.coord.injEq] at hxy
        rw [hcx, Option.getD_some] at hxy
        rw [hxy]

theorem run_collects_every_completion_order_witness :
    sdSample.slide = some () ∧ sdSample.tiles = none ∧
      sdSample.generateTiles true [tileA, tileB] = Except.ok [tileALabeled, tileBLabeled] ∧
      [tileALabeled, tileBLabeled].map idPipe =
        [tileALabeled, tileBLabeled].map Except.ok ∧
      [1, 0].Perm (List.range [tileALabeled, tileBLabeled].length) ∧
      ∃ entries : List Tile,
        entries = [1, 0].filterMap (fun k => [tileALabeled, tileBLabeled][k]?) ∧
        sdSample.run idPipe [tileA, tileB] true [1, 0] false =
          ({ sdSample with tiles := some ⟨entries⟩,
                           tile_dataset := some ⟨⟨entries⟩, sdSample.labels⟩ }, none) ∧
        entries.length = [tileALabeled, tileBLabeled].length ∧
        ((∀ t ∈ [tileALabeled, tileBLabeled], t.coords ≠ none) →
          ([tileALabeled, tileBLabeled].map Tile.coords).Nodup →
          (Tiles.keys ⟨entries⟩).Nodup) :=
  ⟨rfl, rfl, rfl, rfl, by decide,
    run_collects_every_completion_order sdSample idPipe [tileA, tileB] true [1, 0] false
      [tileALabeled, tileBLabeled] [tileALabeled, tileBLabeled] rfl rfl rfl rfl (by decide)⟩

/-- Claim C8: after a successful run, the materialized tile dataset is a
random-access view over the accumulated tiles container: its length equals
the number of entries, positional lookup at each index ix below the count
returns the pair (tiles[ix], shared slide-level labels), and its positional
order is the collection (completion) order at materialization time. -/
theorem run_materializes_dataset (sd : SlideData)
    (pipe : Tile → Except String Tile) (bt : List Tile) (pad : Bool)
    (order : List Nat) (ow : Bool) (gts applied : List Tile)
    (hslide : sd.slide = some ()) (htiles : sd.tiles = none)
    (hgen : sd.generateTiles pad bt = Except.ok gts)
    (happly : gts.map pipe = applied.map Except.ok) :
    ∃ entries : List Tile,
      entries = order.filterMap (fun k => applied[k]?) ∧
      sd.run pipe bt pad order ow =
        ({ sd with tiles := some ⟨entries⟩,
                   tile_dataset := some ⟨⟨entries⟩, sd.labels⟩ }, none) ∧
      TileDataset.len ⟨⟨entries⟩, sd.labels⟩ = entries.length ∧
      ∀ ix, ix < entries.length →
        ∃ tl, entries[ix]? = some tl ∧
          TileDataset.getItem ⟨⟨entries⟩, sd.labels⟩ ix = (some tl, sd.labels) := by
  refine ⟨order.filterMap (fun k => applied[k]?), rfl, ?_, rfl, ?_⟩
  · rw [run_eq_dispatch_of_none sd pipe bt pad order ow hslide htiles]
    have hgen2 : ({ sd with tiles := some Tiles.empty } : SlideData).generateTiles pad bt =
        Except.ok gts := by
      rw [generateTiles_ext { sd with tiles := some Tiles.empty } sd rfl rfl pad bt]
      exact hgen
    rw [runDispatch_all_ok _ pipe bt pad order gts applied rfl hgen2 happly]
  · intro ix hix
    exact ⟨(order.filterMap (fun k => applied[k]?))[ix],
      List.getElem?_eq_getElem hix,
      by rw [TileDataset.getItem, List.getElem?_eq_getElem hix]⟩

theorem run_materializes_dataset_witness :
    sdSample.slide = some () ∧ sdSample.tiles = none ∧
      sdSample.generateTiles true [tileA, tileB] = Except.ok [tileALabeled, tileBLabeled] ∧
      [tileALabeled, tileBLabeled].map idPipe =
        [tileALabeled, tileBLabeled].map Except.ok ∧
      ∃ entries : List Tile,
        entries = [1, 0].filterMap (fun k => [tileALabeled, tileBLabeled][k]?) ∧
        sdSample.run idPipe [tileA, tileB] true [1, 0] false =
          ({ sdSample with tiles := some ⟨entries⟩,
                           tile_dataset := some ⟨⟨entries⟩, sdSample.labels⟩ }, none) ∧
        TileDataset.len ⟨⟨entries⟩, sdSample.labels⟩ = entries.length ∧
        ∀ ix, ix < entries.length →
          ∃ tl, entries[ix]? = some tl ∧
            TileDataset.getItem ⟨⟨entries⟩, sdSample.labels⟩ ix = (some tl, sdSample.labels) :=
  ⟨rfl, rfl, rfl, rfl,
    run_materializes_dataset sdSample idPipe [tileA, tileB] true [1, 0] false
      [tileALabeled, tileBLabeled] [tileALabeled, tileBLabeled] rfl rfl rfl rfl⟩

/-- Claim C4: if a single tile's job raises during collection, the failure
propagates out of `run` to the caller as a job failure (no retry, no
swallowing), and every result collected before the failure remains present
and queryable in the partially-filled tiles container, in collection order. -/
theorem run_partial_failure (sd : SlideData) (pipe : Tile → Except String Tile)
    (bt : List Tile) (pad : Bool) (order : List Nat) (ow : Bool) (gts : List Tile)
    (pre : List Tile) (e : String) (rest : List (Except String Tile))
    (hslide : sd.slide = some ()) (htiles : sd.tiles = none)
    (hgen : sd.generateTiles pad bt = Except.ok gts)
    (hcompleted : order.filterMap (fun k => (gts.map pipe)[k]?) =
      pre.map Except.ok ++ Except.error e :: rest) :
    sd.run pipe bt pad order ow =
      ({ sd with tiles := some ⟨pre⟩ }, some (RunError.jobFailure e)) ∧
      ∀ ix, ix < pre.length → ∃ tl, (⟨pre⟩ : Tiles).entries[ix]? = some tl := by
  constructor
  · rw [run_eq_dispatch_of_none sd pipe bt pad order ow hslide htiles]
    have hgen2 : ({ sd with tiles := some Tiles.empty } : SlideData).generateTiles pad bt =
        Except.ok gts := by
      rw [generateTiles_ext { sd with tiles := some Tiles.empty } sd rfl rfl pad bt]
      exact hgen
    exact runDispatch_fail _ pipe bt pad order gts pre e rest rfl hgen2 hcompleted
  · intro ix hix
    exact ⟨pre[ix], List.getElem?_eq_getElem hix⟩

theorem run_partial_failure_witness :
    sdSample.slide = some () ∧ sdSample.tiles = none ∧
      sdSample.generateTiles true [tileA, tileB] = Except.ok [tileALabeled, tileBLabeled] ∧
      [0, 1].filterMap (fun k => ([tileALabeled, tileBLabeled].map failPipe)[k]?) =
        [tileALabeled].map Except.ok ++ Except.error "boom" :: [] ∧
      (sdSample.run failPipe [tileA, tileB] true [0, 1] false =
        ({ sdSample with tiles := some ⟨[tileALabeled]⟩ }, some (RunError.jobFailure "boom")) ∧
        ∀ ix, ix < [tileALabeled].length →
          ∃ tl, (⟨[tileALabeled]⟩ : Tiles).entries[ix]? = some tl) :=
  ⟨rfl, rfl, rfl, rfl,
    run_partial_failure sdSample failPipe [tileA, tileB] true [0, 1] false
      [tileALabeled, tileBLabeled] [tileALabeled] "boom" [] rfl rfl rfl rfl⟩

/-- Claim C1 counterexample: an aggregate whose tiles container is present but
empty still fails with the already-populated error when overwrite is not
requested, so the failure is not governed by non-emptiness of the result
container as the claim states. -/
theorem run_populated_guard_cex :
    sdEmptyTiles.tiles = some Tiles.empty ∧ Tiles.empty.entries = [] ∧
      sdEmptyTiles.run idPipe [tileA] false [0] false =
        (sdEmptyTiles, some RunError.alreadyPopulated) :=
  ⟨rfl, rfl, rfl⟩

/-- Claim C1 (amended): calling `run` without explicitly requesting overwrite
fails with `AlreadyPopulatedError` exactly when the aggregate's tiles
container is present (not `None`), even when that container is empty; the
error is raised before any dispatch begins and the aggregate, including the
existing tiles container, is returned unchanged; and when overwrite is
explicitly requested (and likewise when the container is absent), all prior
entries are fully discarded — dispatch proceeds from a freshly emptied
container — before any dispatch begins. -/
theorem run_populated_guard (sd : SlideData) (pipe : Tile → Except String Tile)
    (bt : List Tile) (pad : Bool) (order : List Nat)
    (hslide : sd.slide = some ()) :
    ((sd.run pipe bt pad order false).2 = some RunError.alreadyPopulated ↔ sd.tiles ≠ none) ∧
      (sd.tiles ≠ none → sd.run pipe bt pad order false =
        (sd, some RunError.alreadyPopulated)) ∧
      sd.run pipe bt pad order true =
        SlideData.runDispatch { sd with tiles := some Tiles.empty } pipe bt pad order ∧
      (sd.tiles = none → sd.run pipe bt pad order false =
        SlideData.runDispatch { sd with tiles := some Tiles.empty } pipe bt pad order) := by
  have hsome : sd.tiles ≠ none →
      sd.run pipe bt pad order false = (sd, some RunError.alreadyPopulated) := by
    intro hne
    unfold SlideData.run
    rw [hslide]
    cases ht : sd.tiles with
    | none => exact absurd ht hne
    | some ts => rfl
  refine ⟨⟨?_, fun hne => by rw [hsome hne]⟩, hsome, ?_, ?_⟩
  · intro h2
    cases ht : sd.tiles with
    | some ts =>
      intro hc
      exact Option.noConfusion hc
    | none =>
      exfalso
      rw [run_eq_dispatch_of_none sd pipe bt pad order false hslide ht] at h2
      exact runDispatch_no_populated_error _ pipe bt pad order h2
  · unfold SlideData.run
    rw [hslide]
    cases ht : sd.tiles with
    | none => rfl
    | some ts => rfl
  · intro ht
    exact run_eq_dispatch_of_none sd pipe bt pad order false hslide ht

theorem run_populated_guard_witness :
    sdEmptyTiles.slide = some () ∧
      (((sdEmptyTiles.run idPipe [tileA] false [0] false).2 =
            some RunError.alreadyPopulated ↔ sdEmptyTiles.tiles ≠ none) ∧
        (sdEmptyTiles.tiles ≠ none → sdEmptyTiles.run idPipe [tileA] false [0] false =
          (sdEmptyTiles, some RunError.alreadyPopulated)) ∧
        sdEmptyTiles.run idPipe [tileA] false [0] true =
          SlideData.runDispatch { sdEmptyTiles with tiles := some Tiles.empty }
            idPipe [tileA] false [0] ∧
        (sdEmptyTiles.tiles = none → sdEmptyTiles.run idPipe [tileA] false [0] false =
          SlideData.runDispatch { sdEmptyTiles with tiles := some Tiles.empty }
            idPipe [tileA] false [0])) :=
  ⟨rfl, run_populated_guard sdEmptyTiles idPipe [tileA] false [0] rfl⟩
